import Mathlib

/-!
Verification development for the OpenAlex fetch-cache-persist utilities of the
public-tutorials repository.  The repository ships tutorial notebooks that call
the utility functions `get_works`, `get_citations` and `load_works_from_storage`
of `openalex_api_utils.py`; the utility module itself is not part of the
checked-in sources, so the definitions below model it from the repository's
specification (identifier normalizer, fetch-cache-persist pipeline, storage
loader, citation variant), while the notebook's own code (identifier examples,
environment-sourced email loading, the round-trip assertion) is embedded
directly.  Strings are modelled as lists of characters.
-/

abbrev Str := List Char

/-- Modelled from the spec: the canonical key is filesystem-safe, "any `/` in
the raw identifier is replaced with a placeholder character (the record
specifies `#`)". -/
def sanitize (s : Str) : Str :=
  s.map (fun c => if c = '/' then '#' else c)

/-- Resolver URL for OpenAlex IDs; the notebook states OpenAlex IDs are
accepted with or without this. -/
def oaPre : Str := "https://openalex.org/".data

/-- Resolver URL for DOIs; the notebook states DOIs are accepted with or
without this. -/
def doiPre : Str := "https://doi.org/".data

/-- Remove a leading resolver prefix when present, otherwise keep the string. -/
def dropPre (p s : Str) : Str :=
  if p <+: s then s.drop p.length else s

/-- Modelled from the spec: shape (1) of the Normalizer, "a URI or bare
numeric string matching the target catalog's entity-ID pattern" — an OpenAlex
work ID is `W` followed by digits. -/
def isOpenAlexBare (s : Str) : Bool :=
  match s with
  | [] => false
  | c :: rest => c == 'W' && !rest.isEmpty && rest.all Char.isDigit

/-- Modelled from the spec: shape (2) of the Normalizer, "a purely numeric
string of typical PMID length, treated as a PubMed identifier". -/
def isAllDigits (s : Str) : Bool :=
  !s.isEmpty && s.all Char.isDigit

/-- Raw identifier matches the OpenAlex shape (with or without resolver). -/
def isOpenAlexShape (raw : Str) : Bool :=
  isOpenAlexBare (dropPre oaPre raw)

/-- Raw identifier matches the PMID shape. -/
def isPmidShape (raw : Str) : Bool :=
  isAllDigits raw

/-- Raw identifier matches the DOI shape ("any string containing a `/`"). -/
def isDoiShape (raw : Str) : Bool :=
  decide ('/' ∈ raw)

/-- Modelled from the spec: the Identifier Normalizer of the missing
`openalex_api_utils.py`.  Three shapes checked in a fixed order: OpenAlex URI
or bare catalog ID, purely numeric PMID, DOI with an optional resolver prefix
stripped; the resulting canonical key has `/` replaced by `#`; unrecognized
shapes are rejected with `none`. -/
def normalizeId (raw : Str) : Option Str :=
  if isOpenAlexBare (dropPre oaPre raw) then some (dropPre oaPre raw)
  else if isAllDigits raw then some raw
  else if '/' ∈ raw then some (sanitize (dropPre doiPre raw))
  else none

-- Basic facts about the normalizer building blocks.

theorem dropPre_append (p t : Str) : dropPre p (p ++ t) = t := by
  simp [dropPre, List.prefix_append]

theorem dropPre_of_not_pre (p s : Str) (h : ¬ p <+: s) : dropPre p s = s := by
  simp [dropPre, h]

theorem slash_not_mem_sanitize (s : Str) : '/' ∉ sanitize s := by
  intro h
  rcases List.mem_map.1 h with ⟨a, _, hfa⟩
  by_cases ha : a = '/' <;> simp [ha] at hfa

theorem slash_not_mem_of_openAlexBare (s : Str) (h : isOpenAlexBare s = true) :
    '/' ∉ s := by
  match s with
  | [] => simp
  | c :: rest =>
    simp only [isOpenAlexBare, Bool.and_eq_true, beq_iff_eq] at h
    obtain ⟨⟨hc, _⟩, hd⟩ := h
    intro hmem
    rcases List.mem_cons.1 hmem with h1 | h2
    · rw [hc] at h1; exact absurd h1 (by decide)
    · have := (List.all_eq_true.1 hd) _ h2
      exact absurd this (by decide)

theorem slash_not_mem_of_allDigits (s : Str) (h : isAllDigits s = true) :
    '/' ∉ s := by
  simp only [isAllDigits, Bool.and_eq_true] at h
  intro hmem
  have := (List.all_eq_true.1 h.2) _ hmem
  exact absurd this (by decide)

/-- Any canonical key produced by the normalizer is free of `/`. -/
theorem normalizeId_no_slash (raw k : Str) (h : normalizeId raw = some k) :
    '/' ∉ k := by
  unfold normalizeId at h
  by_cases h1 : isOpenAlexBare (dropPre oaPre raw) = true
  · rw [if_pos h1] at h
    exact Option.some.inj h ▸ slash_not_mem_of_openAlexBare _ h1
  · rw [if_neg h1] at h
    by_cases h2 : isAllDigits raw = true
    · rw [if_pos h2] at h
      exact Option.some.inj h ▸ slash_not_mem_of_allDigits _ h2
    · rw [if_neg h2] at h
      by_cases h3 : '/' ∈ raw
      · rw [if_pos h3] at h
        exact Option.some.inj h ▸ slash_not_mem_sanitize _
      · rw [if_neg h3] at h; exact absurd h (by simp)

/-- A raw identifier of one of the three recognized shapes is accepted. -/
theorem normalizeId_isSome_of_shape (raw : Str)
    (h : isOpenAlexShape raw = true ∨ isPmidShape raw = true ∨
         isDoiShape raw = true) :
    (normalizeId raw).isSome := by
  unfold normalizeId
  rcases h with h1 | h2 | h3
  · rw [isOpenAlexShape] at h1; simp [h1]
  · rw [isPmidShape] at h2
    by_cases h1 : isOpenAlexBare (dropPre oaPre raw) = true <;> simp [h1, h2]
  · rw [isDoiShape, decide_eq_true_eq] at h3
    by_cases h1 : isOpenAlexBare (dropPre oaPre raw) = true
    · simp [h1]
    · by_cases h2 : isAllDigits raw = true <;> simp [h1, h2, h3]

-- Data model (spec section 3) and the serialized form used by the cache files.

/-- Modelled from the spec: the metadata document returned by the OpenAlex
API, as the typed document tree the spec prescribes — nested `ids` mapping
with optional `doi`, `pmid`, `openalex` keys, an `open_access.is_oa` flag, the
open-access PDF URL used by fallback stage (a), the public-repository (PMC)
identifier used by stage (b), the list-valued `referenced_works` and
`related_works`, and a `title`. -/
structure Metadata where
  doi : Option Str
  pmid : Option Str
  openalex : Option Str
  is_oa : Bool
  oa_pdf_url : Option Str
  pmcid : Option Str
  referenced_works : List Str
  related_works : List Str
  title : Str
deriving DecidableEq, Repr

/-- Modelled from the spec: the Work record of the missing
`openalex_api_utils.py` — one retrievable scholarly entity. -/
structure Work where
  uid : Str
  metadata : Metadata
  entry_type : Str
  pdf_path : Option Str
  status_messages : List Str
  persist_datetime : Option Str
deriving DecidableEq, Repr

/-- JSON-like values, the serialized form of a persisted Work record. -/
inductive JsonVal where
  | str (s : Str)
  | bool (b : Bool)
  | null
  | arr (l : List JsonVal)
  | obj (l : List (Str × JsonVal))

def encodeOptStr : Option Str → JsonVal
  | none => JsonVal.null
  | some s => JsonVal.str s

def decodeOptStr : JsonVal → Option (Option Str)
  | JsonVal.null => some none
  | JsonVal.str s => some (some s)
  | _ => none

def encodeStrList (l : List Str) : JsonVal :=
  JsonVal.arr (l.map JsonVal.str)

def decodeStrListAux : List JsonVal → Option (List Str)
  | [] => some []
  | JsonVal.str s :: rest => (decodeStrListAux rest).map (fun t => s :: t)
  | _ => none

def decodeStrList : JsonVal → Option (List Str)
  | JsonVal.arr l => decodeStrListAux l
  | _ => none

/-- Serialization of a metadata document into its cache-file JSON form. -/
def encodeMetadata (m : Metadata) : JsonVal :=
  JsonVal.obj
    [("doi".data, encodeOptStr m.doi),
     ("pmid".data, encodeOptStr m.pmid),
     ("openalex".data, encodeOptStr m.openalex),
     ("is_oa".data, JsonVal.bool m.is_oa),
     ("oa_pdf_url".data, encodeOptStr m.oa_pdf_url),
     ("pmcid".data, encodeOptStr m.pmcid),
     ("referenced_works".data, encodeStrList m.referenced_works),
     ("related_works".data, encodeStrList m.related_works),
     ("title".data, JsonVal.str m.title)]

/-- Deserialization of a metadata document from its cache-file JSON form. -/
def decodeMetadata (j : JsonVal) : Option Metadata :=
  match j with
  | JsonVal.obj [(k1, dv), (k2, pv), (k3, ov), (k4, JsonVal.bool oa), (k5, uv),
                 (k6, cv), (k7, rv), (k8, lv), (k9, JsonVal.str t)] =>
    if k1 = "doi".data ∧ k2 = "pmid".data ∧ k3 = "openalex".data ∧
       k4 = "is_oa".data ∧ k5 = "oa_pdf_url".data ∧ k6 = "pmcid".data ∧
       k7 = "referenced_works".data ∧ k8 = "related_works".data ∧
       k9 = "title".data then
      match decodeOptStr dv, decodeOptStr pv, decodeOptStr ov, decodeOptStr uv,
            decodeOptStr cv, decodeStrList rv, decodeStrList lv with
      | some doi, some pmid, some oax, some url, some pmc, some refs, some rel =>
        some ⟨doi, pmid, oax, oa, url, pmc, refs, rel, t⟩
      | _, _, _, _, _, _, _ => none
    else none
  | _ => none

/-- Serialization of a full Work record (spec 4.2 step 6: "serialize the full
record (metadata, uid, entry_type, pdf_path, status_messages, a freshly
stamped persist timestamp) to a file named after the canonical key"). -/
def encodeWork (w : Work) : JsonVal :=
  JsonVal.obj
    [("uid".data, JsonVal.str w.uid),
     ("metadata".data, encodeMetadata w.metadata),
     ("entry_type".data, JsonVal.str w.entry_type),
     ("pdf_path".data, encodeOptStr w.pdf_path),
     ("status_messages".data, encodeStrList w.status_messages),
     ("persist_datetime".data, encodeOptStr w.persist_datetime)]

/-- Deserialization of a full Work record from a cache file. -/
def decodeWork (j : JsonVal) : Option Work :=
  match j with
  | JsonVal.obj [(k1, JsonVal.str uid), (k2, mv), (k3, JsonVal.str et),
                 (k4, pv), (k5, sv), (k6, dv)] =>
    if k1 = "uid".data ∧ k2 = "metadata".data ∧ k3 = "entry_type".data ∧
       k4 = "pdf_path".data ∧ k5 = "status_messages".data ∧
       k6 = "persist_datetime".data then
      match decodeMetadata mv, decodeOptStr pv, decodeStrList sv,
            decodeOptStr dv with
      | some m, some pp, some msgs, some dt => some ⟨uid, m, et, pp, msgs, dt⟩
      | _, _, _, _ => none
    else none
  | _ => none

theorem decodeOptStr_encode (o : Option Str) :
    decodeOptStr (encodeOptStr o) = some o := by
  cases o <;> rfl

theorem decodeStrList_encode (l : List Str) :
    decodeStrList (encodeStrList l) = some l := by
  simp only [encodeStrList, decodeStrList]
  induction l with
  | nil => rfl
  | cons a t ih => simp [decodeStrListAux, ih]

theorem decodeMetadata_encode (m : Metadata) :
    decodeMetadata (encodeMetadata m) = some m := by
  simp only [encodeMetadata, decodeMetadata]
  rw [if_pos (by decide)]
  simp only [decodeOptStr_encode, decodeStrList_encode]

theorem decodeWork_encode (w : Work) : decodeWork (encodeWork w) = some w := by
  simp only [encodeWork, decodeWork]
  rw [if_pos (by decide)]
  simp only [decodeMetadata_encode, decodeOptStr_encode, decodeStrList_encode]

-- Storage: one file per record, named by canonical key (spec section 6).

/-- A persistence directory: cache files as (file name, JSON contents). -/
abbrev Dir := List (Str × JsonVal)

/-- Lookup of the cache file named `k` in a persistence directory. -/
def lookupDir (d : Dir) (k : Str) : Option JsonVal :=
  match d with
  | [] => none
  | (k', v) :: rest => if k' = k then some v else lookupDir rest k

/-- Modelled from the spec: step 6 of the pipeline, "serialize the full record
... to a file named after the canonical key in that directory, overwriting any
prior version". -/
def persistWork (d : Dir) (w : Work) : Dir :=
  d.filter (fun p => p.1 ≠ w.uid) ++ [(w.uid, encodeWork w)]

/-- Persist a whole batch of records, in order. -/
def persistAll (ws : List Work) (d : Dir) : Dir :=
  ws.foldl persistWork d

/-- Modelled from the spec: `load_works_from_storage` of the missing
`openalex_api_utils.py` — reconstruct every previously persisted Work record
by reading each file in the directory and deserializing it. -/
def load_works_from_storage (d : Dir) : List Work :=
  d.filterMap (fun p => decodeWork p.2)

/-- The cache-hit lookup used by the pipeline: read the file named by the
canonical key and deserialize it. -/
def lookupWork (d : Dir) (k : Str) : Option Work :=
  (lookupDir d k).bind decodeWork

theorem lookupWork_persistWork (d : Dir) (w : Work) :
    lookupWork (persistWork d w) w.uid = some w := by
  unfold lookupWork persistWork
  have h : lookupDir (d.filter (fun p => p.1 ≠ w.uid) ++ [(w.uid, encodeWork w)])
      w.uid = some (encodeWork w) := by
    induction d with
    | nil => simp [lookupDir]
    | cons q rest ih =>
      by_cases hq : q.1 = w.uid
      · simpa [List.filter, hq] using ih
      · simpa [List.filter, hq, lookupDir] using ih
  rw [h]
  simp [decodeWork_encode]

theorem persistWork_fresh (d : Dir) (w : Work) (h : ∀ q ∈ d, q.1 ≠ w.uid) :
    persistWork d w = d ++ [(w.uid, encodeWork w)] := by
  unfold persistWork
  congr 1
  apply List.filter_eq_self.2
  intro q hq
  simpa using h q hq

theorem persistAll_fresh (ws : List Work) (d : Dir)
    (hd : ∀ w ∈ ws, ∀ q ∈ d, q.1 ≠ w.uid)
    (hn : (ws.map Work.uid).Nodup) :
    persistAll ws d = d ++ ws.map (fun w => (w.uid, encodeWork w)) := by
  induction ws generalizing d with
  | nil => simp [persistAll]
  | cons w rest ih =>
    rw [show persistAll (w :: rest) d = persistAll rest (persistWork d w) from rfl,
        persistWork_fresh d w (fun q hq => hd w (List.mem_cons_self w rest) q hq),
        ih]
    · simp
    · intro w' hw' q hq
      rcases List.mem_append.1 hq with h1 | h2
      · exact hd w' (List.mem_cons_of_mem _ hw') q h1
      · rcases List.mem_singleton.1 h2 with rfl
        simp only [List.map_cons, List.nodup_cons] at hn
        intro hcontra
        exact hn.1 (by
          rw [show w.uid = w'.uid from hcontra]
          exact List.mem_map_of_mem Work.uid hw')
    · simp only [List.map_cons, List.nodup_cons] at hn
      exact hn.2

theorem load_map_encode (ws : List Work) :
    load_works_from_storage (ws.map (fun w => (w.uid, encodeWork w))) = ws := by
  induction ws with
  | nil => rfl
  | cons w rest ih =>
    simp only [load_works_from_storage, List.map_cons, List.filterMap_cons] at *
    simp [decodeWork_encode, ih]

/-- C1: every Work record persisted by the pipeline to a persistence
directory is reproduced, field for field (uid, metadata, entry_type,
pdf_path, status_messages, persist_datetime), when the directory is loaded
with `load_works_from_storage`; for a batch with distinct uids persisted into
a fresh directory the loaded list equals the persisted list outright, so the
two lists in particular agree after sorting both by uid or persist_datetime. -/
theorem load_works_from_storage_roundtrip (ws : List Work)
    (hn : (ws.map Work.uid).Nodup) :
    load_works_from_storage (persistAll ws []) = ws := by
  rw [persistAll_fresh ws [] (by simp) hn]
  simpa using load_map_encode ws

-- The fetch-cache-persist pipeline (spec section 4.2), modelled from the spec
-- with the external world (HTTP metadata API, download endpoints, browser
-- automation, clock) abstracted as an oracle.

/-- The three stages of the ordered PDF fallback chain (spec 4.2 step 4):
direct HTTP download, public-repository (PMC) download, browser automation. -/
inductive PdfStage where
  | direct
  | pmc
  | selenium
deriving DecidableEq, Repr

/-- Observable side effects of one pipeline run: HTTP metadata requests and
PDF-acquisition attempts. -/
inductive Event where
  | httpFetch (uid : Str)
  | pdf (s : PdfStage)
deriving DecidableEq, Repr

/-- The external world as seen by the pipeline: the metadata API (by
canonical identifier), the three download mechanisms, the citing-works
traversal of the API, and the clock used for persist timestamps. -/
structure Api where
  fetchMeta : Str → Option Metadata
  directDownload : Str → Bool
  pmcDownload : Str → Bool
  seleniumDownload : Metadata → Bool
  citingIds : Str → List Str
  now : Str

/-- Configuration of one pipeline call (spec 4.2): courtesy email, optional
PDF output directory, optional persistence directory, browser-automation
flags, and the entry-type tag stamped on every resulting record. -/
structure Config where
  email : Str
  pdf_output_dir : Option Str
  persist_dir : Option Str
  enable_selenium : Bool
  is_headless : Bool
  entry_type : Str

/-- One segment of the PDF file name; the literal `None` when that identifier
type is unavailable for the record. -/
def pdfSegment : Option Str → Str
  | none => "None".data
  | some s => s

/-- Modelled from the spec: the PDF naming convention
`{PMID}_{DOI}_{OpenAlexID}.pdf` with `/` replaced by `#` and absent segments
rendered as the literal `None`. -/
def pdfFileName (m : Metadata) : Str :=
  sanitize (pdfSegment m.pmid ++ "_".data ++ pdfSegment m.doi ++ "_".data ++
            pdfSegment m.openalex ++ ".pdf".data)

/-- Modelled from the spec: the ordered PDF fallback chain of the missing
`openalex_api_utils.py` — (a) direct HTTP download from the open-access PDF
URL, (b) on failure, the public-repository download endpoint when a PMCID is
present, (c) on failure, browser automation when enabled; stopping at first
success, each attempt appending a status message.  Returns the path of the
written file (if any), the status messages, and the stages attempted in
order. -/
def attemptPdf (api : Api) (enable_selenium : Bool) (dir : Str)
    (m : Metadata) : Option Str × List Str × List PdfStage :=
  let path := dir ++ "/".data ++ pdfFileName m
  let directOk := match m.oa_pdf_url with
    | some u => api.directDownload u
    | none => false
  if directOk then
    (some path, ["PDF downloaded directly".data], [PdfStage.direct])
  else
    match m.pmcid with
    | some p =>
      if api.pmcDownload p then
        (some path,
         ["direct PDF download failed".data, "PDF downloaded from PMC".data],
         [PdfStage.direct, PdfStage.pmc])
      else if enable_selenium then
        if api.seleniumDownload m then
          (some path,
           ["direct PDF download failed".data, "PMC download failed".data,
            "PDF downloaded via browser automation".data],
           [PdfStage.direct, PdfStage.pmc, PdfStage.selenium])
        else
          (none,
           ["direct PDF download failed".data, "PMC download failed".data,
            "browser automation failed".data],
           [PdfStage.direct, PdfStage.pmc, PdfStage.selenium])
      else
        (none,
         ["direct PDF download failed".data, "PMC download failed".data],
         [PdfStage.direct, PdfStage.pmc])
    | none =>
      if enable_selenium then
        if api.seleniumDownload m then
          (some path,
           ["direct PDF download failed".data,
            "PDF downloaded via browser automation".data],
           [PdfStage.direct, PdfStage.selenium])
        else
          (none,
           ["direct PDF download failed".data,
            "browser automation failed".data],
           [PdfStage.direct, PdfStage.selenium])
      else
        (none, ["direct PDF download failed".data], [PdfStage.direct])

/-- Modelled from the spec: steps 3 to 6 of the per-identifier algorithm —
metadata request (with per-item failure recording), PDF acquisition when an
output directory is configured and the record is open access, and
persistence with a freshly stamped timestamp. -/
def fetchAndBuild (api : Api) (cfg : Config) (store : Dir) (uid : Str) :
    Dir × Option Work × List Str × List Event :=
  match api.fetchMeta uid with
  | none =>
    (store, none, ["failed to retrieve work ".data ++ uid],
     [Event.httpFetch uid])
  | some m =>
    let pdfRes : Option Str × List Str × List PdfStage :=
      match cfg.pdf_output_dir with
      | some d =>
        if m.is_oa then attemptPdf api cfg.enable_selenium d m
        else (none, ["not open access, PDF not downloaded".data], [])
      | none => (none, [], [])
    let w : Work :=
      { uid := uid, metadata := m, entry_type := cfg.entry_type,
        pdf_path := pdfRes.1,
        status_messages := "metadata retrieved".data :: pdfRes.2.1,
        persist_datetime :=
          if cfg.persist_dir.isSome then some api.now else none }
    let store' := if cfg.persist_dir.isSome then persistWork store w else store
    (store', some w, [], Event.httpFetch uid :: pdfRes.2.2.map Event.pdf)

/-- Modelled from the spec: the per-identifier algorithm of `get_works` —
normalize (recording a per-item failure on unrecognized shape), check the
cache before any HTTP call when a persistence directory is configured
(adopting the cached record unmodified), otherwise fetch, acquire PDF and
persist. -/
def processOne (api : Api) (cfg : Config) (store : Dir) (raw : Str) :
    Dir × Option Work × List Str × List Event :=
  match normalizeId raw with
  | none =>
    (store, none, ["unrecognized identifier ".data ++ raw], [])
  | some uid =>
    if cfg.persist_dir.isSome then
      match lookupWork store uid with
      | some w => (store, some w, [], [])
      | none => fetchAndBuild api cfg store uid
    else fetchAndBuild api cfg store uid

/-- Batch orchestration: process identifiers in input order, collecting
successful records and failure messages separately. -/
def getWorksAux (api : Api) (cfg : Config) :
    List Str → Dir → Dir × List Work × List Str × List Event
  | [], store => (store, [], [], [])
  | raw :: rest, store =>
    let r := processOne api cfg store raw
    let rr := getWorksAux api cfg rest r.1
    (rr.1, r.2.1.toList ++ rr.2.1, r.2.2.1 ++ rr.2.2.1, r.2.2.2 ++ rr.2.2.2)

/-- Modelled from the spec: `get_works` of the missing
`openalex_api_utils.py`.  The courtesy email is required configuration:
absence is a configuration error surfaced at the start of the whole call,
before any per-identifier processing or network access; otherwise the batch
is processed in order, returning the final store, the successful Work
records and the failure messages, alongside the observable events. -/
def get_works (api : Api) (email : Option Str) (ids : List Str)
    (pdf_output_dir persist_dir : Option Str)
    (enable_selenium is_headless : Bool) (entry_type : Str) (store : Dir) :
    Except Str (Dir × List Work × List Str) × List Event :=
  match email with
  | none => (Except.error "missing courtesy email configuration".data, [])
  | some e =>
    let cfg : Config :=
      { email := e, pdf_output_dir := pdf_output_dir,
        persist_dir := persist_dir, enable_selenium := enable_selenium,
        is_headless := is_headless, entry_type := entry_type }
    let r := getWorksAux api cfg ids store
    (Except.ok (r.1, r.2.1, r.2.2.1), r.2.2.2)

/-- Embedded from the notebook's setup cell: the courtesy email is read from
the environment (key `EMAIL`); when absent, an instruction message is
surfaced to the caller instead of a crash. -/
def loadEmail (env : Str → Option Str) : Except Str Str :=
  match env "EMAIL".data with
  | some e => Except.ok e
  | none =>
    Except.error
      "Add your email address to the environment variables before proceeding".data

/-- Entry type stamped by the citation-retrieval variant. -/
def citingEntryType : Str := "citing primary entry".data

/-- A best-effort partial record for a citing identifier whose processing
failed; the failure is visible only through its status messages. -/
def partialWork (et : Str) (raw : Str) (msgs : List Str) : Work :=
  { uid := raw, metadata := ⟨none, none, none, false, none, none, [], [], []⟩,
    entry_type := et, pdf_path := none, status_messages := msgs,
    persist_datetime := none }

/-- Per-identifier processing of the citation variant: as `processOne`, but
failures become partial records in the single output list, and every record
is stamped with the citing entry type. -/
def processCitingOne (api : Api) (cfg : Config) (store : Dir) (raw : Str) :
    Dir × Work × List Event :=
  let r := processOne api cfg store raw
  match r.2.1 with
  | some w => (r.1, { w with entry_type := citingEntryType }, r.2.2.2)
  | none => (r.1, partialWork citingEntryType raw r.2.2.1, r.2.2.2)

def getCitationsAux (api : Api) (cfg : Config) :
    List Str → Dir → Dir × List Work × List Event
  | [], store => (store, [], [])
  | raw :: rest, store =>
    let r := processCitingOne api cfg store raw
    let rr := getCitationsAux api cfg rest r.1
    (rr.1, r.2.1 :: rr.2.1, r.2.2 ++ rr.2.2)

/-- Modelled from the spec: `get_citations` of the missing
`openalex_api_utils.py` — takes already-fetched Work records, derives the
citing identifiers via a different API traversal, always stamps
`entry_type = "citing primary entry"`, and returns a single list of Work
records with no separate failure list. -/
def get_citations (api : Api) (email : Str) (works : List Work)
    (pdf_output_dir persist_dir : Option Str)
    (enable_selenium is_headless : Bool) (store : Dir) :
    Dir × List Work × List Event :=
  let citing := (works.map (fun w => api.citingIds w.uid)).flatten
  let cfg : Config :=
    { email := email, pdf_output_dir := pdf_output_dir,
      persist_dir := persist_dir, enable_selenium := enable_selenium,
      is_headless := is_headless, entry_type := citingEntryType }
  getCitationsAux api cfg citing store

-- Claim theorems.

/-- C2: for an identifier whose record is already present in the configured
persistence directory, a `get_works` request issues no network call (the
event trace is empty) and returns the cached record unchanged — including its
previously recorded pdf_path and status_messages — leaving the store as it
was; the cache lookup happens before any HTTP request. -/
theorem get_works_cache_precedence (api : Api) (e x : Str)
    (pod : Option Str) (pd : Str) (sel hl : Bool) (et : Str)
    (store : Dir) (uid : Str) (w : Work)
    (hnorm : normalizeId x = some uid)
    (hcache : lookupWork store uid = some w) :
    get_works api (some e) [x] pod (some pd) sel hl et store
      = (Except.ok (store, [w], []), []) := by
  simp [get_works, getWorksAux, processOne, hnorm, hcache]

/-- C9: every identifier passed to `get_works` is accounted for in exactly
one of the two returned lists — one record in the success list or one message
in the failure list — so the two lengths sum to the number of input
identifiers. -/
theorem get_works_accounting (api : Api) (e : Str) (ids : List Str)
    (pod pd : Option Str) (sel hl : Bool) (et : Str) (store : Dir) :
    (get_works api (some e) ids pod pd sel hl et store).1.map
      (fun r => r.2.1.length + r.2.2.length) = Except.ok ids.length := by
  have haux : ∀ (cfg : Config) (l : List Str) (st : Dir),
      (getWorksAux api cfg l st).2.1.length +
        (getWorksAux api cfg l st).2.2.1.length = l.length := by
    intro cfg l
    induction l with
    | nil => intro st; simp [getWorksAux]
    | cons raw rest ih =>
      intro st
      have hone : (processOne api cfg st raw).2.1.toList.length +
          (processOne api cfg st raw).2.2.1.length = 1 := by
        unfold processOne
        cases hn : normalizeId raw with
        | none => simp
        | some uid =>
          have hfb : ∀ st', (fetchAndBuild api cfg st' uid).2.1.toList.length +
              (fetchAndBuild api cfg st' uid).2.2.1.length = 1 := by
            intro st'
            unfold fetchAndBuild
            cases api.fetchMeta uid <;> simp
          by_cases hp : cfg.persist_dir.isSome
          · simp only [hp, if_true]
            cases lookupWork st uid <;> simp [hfb]
          · simp only [hp, if_false]
            exact hfb st
      simp only [getWorksAux, List.length_append, List.length_cons]
      rw [show ∀ a b c d : Nat, a + b + (c + d) = (a + c) + (b + d) by omega]
      rw [hone, ih]
      omega
  simp only [get_works, Except.map]
  rw [haux]

/-- C4: an identifier of unrecognized shape produces one per-item failure
message and is skipped without aborting the batch; a batch of one
unrecognized identifier followed by two valid ones returns exactly the two
successful Work records, in input order, and exactly one failure message. -/
theorem get_works_batch_resilience (api : Api) (e b v1 v2 k1 k2 : Str)
    (m1 m2 : Metadata) (et : Str) (store : Dir)
    (hb : normalizeId b = none)
    (h1 : normalizeId v1 = some k1) (h2 : normalizeId v2 = some k2)
    (hf1 : api.fetchMeta k1 = some m1) (hf2 : api.fetchMeta k2 = some m2) :
    ∃ w1 w2 : Work,
      get_works api (some e) [b, v1, v2] none none false false et store
        = (Except.ok (store, [w1, w2],
            ["unrecognized identifier ".data ++ b]),
           [Event.httpFetch k1, Event.httpFetch k2]) ∧
      w1.uid = k1 ∧ w1.metadata = m1 ∧ w2.uid = k2 ∧ w2.metadata = m2 := by
  refine ⟨⟨k1, m1, et, none, ["metadata retrieved".data], none⟩,
          ⟨k2, m2, et, none, ["metadata retrieved".data], none⟩,
          ?_, rfl, rfl, rfl, rfl⟩
  simp [get_works, getWorksAux, processOne, fetchAndBuild,
        hb, h1, h2, hf1, hf2]

/-- C8: absence of the courtesy-contact email is a configuration error
surfaced to the caller at the start of the whole call — the notebook's
environment loading returns an instruction message rather than crashing, and
`get_works` returns an error with an empty event trace, so no per-identifier
processing or network access happens. -/
theorem get_works_missing_email (api : Api) (ids : List Str)
    (pod pd : Option Str) (sel hl : Bool) (et : Str) (store : Dir)
    (env : Str → Option Str) (henv : env "EMAIL".data = none) :
    loadEmail env =
      Except.error
        "Add your email address to the environment variables before proceeding".data ∧
    get_works api none ids pod pd sel hl et store
      = (Except.error "missing courtesy email configuration".data, []) := by
  constructor
  · simp [loadEmail, henv]
  · rfl

theorem attemptPdf_stages_sublist (api : Api) (sel : Bool) (d : Str)
    (m : Metadata) :
    ((attemptPdf api sel d m).2.2).Sublist
      [PdfStage.direct, PdfStage.pmc, PdfStage.selenium] := by
  have h1 : [PdfStage.direct].Sublist
      [PdfStage.direct, PdfStage.pmc, PdfStage.selenium] := by decide
  have h2 : [PdfStage.direct, PdfStage.pmc].Sublist
      [PdfStage.direct, PdfStage.pmc, PdfStage.selenium] := by decide
  have h3 : [PdfStage.direct, PdfStage.pmc, PdfStage.selenium].Sublist
      [PdfStage.direct, PdfStage.pmc, PdfStage.selenium] := by decide
  have h4 : [PdfStage.direct, PdfStage.selenium].Sublist
      [PdfStage.direct, PdfStage.pmc, PdfStage.selenium] := by decide
  unfold attemptPdf
  cases m.oa_pdf_url <;> cases m.pmcid <;>
    dsimp only <;> (try split_ifs) <;> dsimp only <;>
    first | exact h1 | exact h2 | exact h3 | exact h4

/-- C3: PDF acquisition follows the ordered fallback chain — direct download,
then repository (PMC) download, then browser automation, stopping at first
success; and when the direct download fails, a public-repository identifier
is present and browser automation is disabled, the repository download is
attempted, its outcome is the final outcome, and the browser stage is never
invoked. -/
theorem attemptPdf_fallback_ordering (api : Api) (d : Str) (m : Metadata)
    (u p : Str)
    (hurl : m.oa_pdf_url = some u) (hfail : api.directDownload u = false)
    (hpmc : m.pmcid = some p) :
    (∀ (sel : Bool) (d' : Str) (m' : Metadata),
      ((attemptPdf api sel d' m').2.2).Sublist
        [PdfStage.direct, PdfStage.pmc, PdfStage.selenium]) ∧
    (attemptPdf api false d m).2.2 = [PdfStage.direct, PdfStage.pmc] ∧
    PdfStage.selenium ∉ (attemptPdf api false d m).2.2 ∧
    ((attemptPdf api false d m).1.isSome ↔ api.pmcDownload p = true) ∧
    (api.pmcDownload p = true →
      (attemptPdf api false d m).1 = some (d ++ "/".data ++ pdfFileName m)) := by
  refine ⟨attemptPdf_stages_sublist api, ?_, ?_, ?_, ?_⟩ <;>
    (unfold attemptPdf;
     simp only [hurl, hfail, hpmc];
     cases hd : api.pmcDownload p <;> simp)

/-- C6: every successful PDF acquisition writes the file under the
configured output directory with the name
`{PMID}_{DOI}_{OpenAlexID}.pdf`, every `/` replaced by `#` (the name is free
of `/`), and the literal `None` standing in for each of the three segments
whose identifier type is unavailable for the record. -/
theorem attemptPdf_naming_convention (api : Api) (sel : Bool) (d : Str)
    (m : Metadata) (p : Str) (msgs : List Str) (stages : List PdfStage)
    (h : attemptPdf api sel d m = (some p, msgs, stages)) :
    p = d ++ "/".data ++
        sanitize (pdfSegment m.pmid ++ "_".data ++ pdfSegment m.doi ++
                  "_".data ++ pdfSegment m.openalex ++ ".pdf".data) ∧
    '/' ∉ pdfFileName m ∧
    (m.pmid = none → pdfSegment m.pmid = "None".data) ∧
    (m.doi = none → pdfSegment m.doi = "None".data) ∧
    (m.openalex = none → pdfSegment m.openalex = "None".data) := by
  refine ⟨?_, slash_not_mem_sanitize _, fun h' => by rw [h', pdfSegment],
          fun h' => by rw [h', pdfSegment], fun h' => by rw [h', pdfSegment]⟩
  have hp : p = d ++ "/".data ++ pdfFileName m := by
    unfold attemptPdf at h
    cases hu : m.oa_pdf_url <;> rw [hu] at h <;>
      cases hc : m.pmcid <;> rw [hc] at h <;>
      dsimp only at h <;> (try split_ifs at h) <;>
      first
        | (injection h with e1 e2; injection e1 with e3; exact e3.symm)
        | (injection h with e1 e2; injection e1)
  rw [hp, pdfFileName]

theorem getCitationsAux_entry_type (api : Api) (cfg : Config)
    (ids : List Str) (store : Dir) (w : Work)
    (hw : w ∈ (getCitationsAux api cfg ids store).2.1) :
    w.entry_type = citingEntryType := by
  induction ids generalizing store with
  | nil => simp [getCitationsAux] at hw
  | cons raw rest ih =>
    simp only [getCitationsAux, List.mem_cons] at hw
    rcases hw with h1 | h2
    · rw [h1]
      unfold processCitingOne
      rcases hpo : (processOne api cfg store raw).2.1 with _ | w0 <;>
        simp [hpo, partialWork]
    · exact ih _ h2

/-- C7: `get_citations` returns a single list of Work records (that is its
return type — no separate failure list; failures are visible only through the
status messages of the returned records), and every returned record carries
`entry_type = "citing primary entry"`. -/
theorem get_citations_entry_type (api : Api) (e : Str) (works : List Work)
    (pod pd : Option Str) (sel hl : Bool) (store : Dir) (w : Work)
    (hw : w ∈ (get_citations api e works pod pd sel hl store).2.1) :
    w.entry_type = "citing primary entry".data := by
  exact getCitationsAux_entry_type api _ _ store w hw

/-- C5: for every raw identifier of one of the three recognized shapes
(OpenAlex URI or bare catalog ID, purely numeric PMID, DOI with optional
resolver prefix), the Normalizer returns a canonical key containing no `/`
character, and normalizing the same raw identifier is deterministic — any
key it returns for that identifier is that same key. -/
theorem normalizeId_canonical (raw : Str)
    (h : isOpenAlexShape raw = true ∨ isPmidShape raw = true ∨
         isDoiShape raw = true) :
    ∃ k, normalizeId raw = some k ∧ '/' ∉ k ∧
      ∀ k', normalizeId raw = some k' → k' = k := by
  rcases Option.isSome_iff_exists.1 (normalizeId_isSome_of_shape raw h)
    with ⟨k, hk⟩
  refine ⟨k, hk, normalizeId_no_slash raw k hk, fun k' hk' => ?_⟩
  rw [hk] at hk'
  exact (Option.some.inj hk').symm

theorem not_oaPre_pre_doiPre_append (d : Str) : ¬ oaPre <+: doiPre ++ d := by
  rintro ⟨t, ht⟩
  have ht' : 'h' :: 't' :: 't' :: 'p' :: 's' :: ':' :: '/' :: '/' :: 'o' ::
      ("penalex.org/".data ++ t)
      = 'h' :: 't' :: 't' :: 'p' :: 's' :: ':' :: '/' :: '/' :: 'd' ::
        ("oi.org/".data ++ d) := ht
  injection ht' with e1 r1; injection r1 with e2 r2; injection r2 with e3 r3
  injection r3 with e4 r4; injection r4 with e5 r5; injection r5 with e6 r6
  injection r6 with e7 r7; injection r7 with e8 r8; injection r8 with e9 r9
  exact absurd e9 (by decide)

theorem not_oaPre_pre_of_bare (w : Str) (hw : isOpenAlexBare w = true) :
    ¬ oaPre <+: w := by
  match w with
  | [] => simp [isOpenAlexBare] at hw
  | c :: rest =>
    have hc : c = 'W' := by
      simp only [isOpenAlexBare, Bool.and_eq_true, beq_iff_eq] at hw
      exact hw.1.1
    rintro ⟨t, ht⟩
    have ht' : 'h' :: ("ttps://openalex.org/".data ++ t) = c :: rest := ht
    injection ht' with e1 _
    rw [hc] at e1
    exact absurd e1 (by decide)

theorem isOpenAlexBare_doiPre_append (d : Str) :
    isOpenAlexBare (doiPre ++ d) = false := rfl

theorem isAllDigits_doiPre_append (d : Str) :
    isAllDigits (doiPre ++ d) = false := rfl

theorem normalizeId_doiPre (dd : Str) (hd : '/' ∈ dd)
    (hoa : isOpenAlexShape dd = false) (hnp : ¬ doiPre <+: dd) :
    normalizeId (doiPre ++ dd) = normalizeId dd := by
  have hmem : '/' ∈ doiPre ++ dd := List.mem_append_left _ (by decide)
  have h1 : dropPre oaPre (doiPre ++ dd) = doiPre ++ dd :=
    dropPre_of_not_pre _ _ (not_oaPre_pre_doiPre_append dd)
  have hAD : isAllDigits dd = false := by
    cases hh : isAllDigits dd
    · rfl
    · exact absurd hd (slash_not_mem_of_allDigits dd hh)
  have e1 : normalizeId (doiPre ++ dd) = some (sanitize dd) := by
    unfold normalizeId
    rw [h1, isOpenAlexBare_doiPre_append, isAllDigits_doiPre_append,
        dropPre_append]
    simp [hmem]
  have e2 : normalizeId dd = some (sanitize dd) := by
    unfold normalizeId
    rw [show isOpenAlexBare (dropPre oaPre dd) = false from hoa, hAD,
        dropPre_of_not_pre _ _ hnp]
    simp [hd]
  rw [e1, e2]

theorem normalizeId_oaPre (w : Str) (hw : isOpenAlexBare w = true) :
    normalizeId (oaPre ++ w) = normalizeId w := by
  have h1 : dropPre oaPre (oaPre ++ w) = w := dropPre_append _ _
  have h2 : dropPre oaPre w = w :=
    dropPre_of_not_pre _ _ (not_oaPre_pre_of_bare w hw)
  unfold normalizeId
  rw [h1, h2, hw]
  simp

/-- C10: normalization is resolver-prefix invariant — a bare DOI (a string
containing `/` that is neither an OpenAlex shape nor already
resolver-prefixed) normalizes to the same canonical identifier, hence the
same uid and cache key, with or without the `https://doi.org/` prefix, and a
bare OpenAlex ID normalizes to the same canonical identifier with or without
the `https://openalex.org/` prefix. -/
theorem normalizeId_prefix_invariant (d w : Str)
    (hd : '/' ∈ d) (hoa : isOpenAlexShape d = false) (hnp : ¬ doiPre <+: d)
    (hw : isOpenAlexBare w = true) :
    normalizeId (doiPre ++ d) = normalizeId d ∧
    normalizeId (oaPre ++ w) = normalizeId w :=
  ⟨normalizeId_doiPre d hd hoa hnp, normalizeId_oaPre w hw⟩

-- Concrete fixtures used by the witnesses.

/-- A concrete open-access metadata document with all three identifiers. -/
def exMeta : Metadata :=
  { doi := some "10.1126/sciimmunol.aau8714".data,
    pmid := some "33497357".data,
    openalex := some "W1".data,
    is_oa := true,
    oa_pdf_url := some "https://example.org/a.pdf".data,
    pmcid := some "PMC123".data,
    referenced_works := [], related_works := [],
    title := "T".data }

/-- A concrete oracle: metadata always found, direct download fails, the PMC
endpoint succeeds, browser automation fails. -/
def exApi : Api :=
  { fetchMeta := fun _ => some exMeta,
    directDownload := fun _ => false,
    pmcDownload := fun _ => true,
    seleniumDownload := fun _ => false,
    citingIds := fun _ => ["33497357".data],
    now := "2024-01-01".data }

/-- A concrete Work record. -/
def exWork : Work :=
  { uid := "W1".data, metadata := exMeta, entry_type := "primary".data,
    pdf_path := none, status_messages := ["metadata retrieved".data],
    persist_datetime := none }

/-- A second concrete Work record with a distinct uid. -/
def exWork2 : Work := { exWork with uid := "W2".data }

/-- The record produced for the citing identifier of the fixture oracle. -/
def exCitingWork : Work :=
  { uid := "33497357".data, metadata := exMeta, entry_type := citingEntryType,
    pdf_path := none, status_messages := ["metadata retrieved".data],
    persist_datetime := none }

/-- Witness for C1 at a concrete two-record batch with distinct uids. -/
theorem load_works_from_storage_roundtrip_witness :
    load_works_from_storage (persistAll [exWork, exWork2] [])
      = [exWork, exWork2] :=
  load_works_from_storage_roundtrip [exWork, exWork2] (by decide)

/-- Witness for C2: a store already holding the record for `W1`, requested
through its OpenAlex URI. -/
theorem get_works_cache_precedence_witness :
    get_works exApi (some "a@b.c".data) ["https://openalex.org/W1".data] none
      (some "cache".data) false true "primary".data (persistWork [] exWork)
      = (Except.ok (persistWork [] exWork, [exWork], []), []) :=
  get_works_cache_precedence exApi "a@b.c".data
    "https://openalex.org/W1".data none "cache".data false true
    "primary".data (persistWork [] exWork) "W1".data exWork
    (by decide) (by decide)

/-- Witness for C3: direct download fails, a PMCID is present, browser
automation is disabled. -/
theorem attemptPdf_fallback_ordering_witness :
    (∀ (sel : Bool) (d' : Str) (m' : Metadata),
      ((attemptPdf exApi sel d' m').2.2).Sublist
        [PdfStage.direct, PdfStage.pmc, PdfStage.selenium]) ∧
    (attemptPdf exApi false "pdfs".data exMeta).2.2
      = [PdfStage.direct, PdfStage.pmc] ∧
    PdfStage.selenium ∉ (attemptPdf exApi false "pdfs".data exMeta).2.2 ∧
    ((attemptPdf exApi false "pdfs".data exMeta).1.isSome ↔
      exApi.pmcDownload "PMC123".data = true) ∧
    (exApi.pmcDownload "PMC123".data = true →
      (attemptPdf exApi false "pdfs".data exMeta).1
        = some ("pdfs".data ++ "/".data ++ pdfFileName exMeta)) :=
  attemptPdf_fallback_ordering exApi "pdfs".data exMeta
    "https://example.org/a.pdf".data "PMC123".data rfl rfl rfl

/-- Witness for C4: one unrecognized identifier alongside a PMID and a DOI. -/
theorem get_works_batch_resilience_witness :
    ∃ w1 w2 : Work,
      get_works exApi (some "a@b.c".data)
        ["bad id!".data, "33497357".data, "10.1/x".data] none none false
        false "primary".data []
        = (Except.ok ([], [w1, w2],
            ["unrecognized identifier ".data ++ "bad id!".data]),
           [Event.httpFetch "33497357".data, Event.httpFetch "10.1#x".data]) ∧
      w1.uid = "33497357".data ∧ w1.metadata = exMeta ∧
      w2.uid = "10.1#x".data ∧ w2.metadata = exMeta :=
  get_works_batch_resilience exApi "a@b.c".data "bad id!".data
    "33497357".data "10.1/x".data "33497357".data "10.1#x".data exMeta exMeta
    "primary".data [] (by decide) (by decide) (by decide) rfl rfl

/-- Witness for C5 at a concrete DOI. -/
theorem normalizeId_canonical_witness :
    ∃ k, normalizeId "10.1126/sciimmunol.aau8714".data = some k ∧ '/' ∉ k ∧
      ∀ k', normalizeId "10.1126/sciimmunol.aau8714".data = some k' → k' = k :=
  normalizeId_canonical "10.1126/sciimmunol.aau8714".data (by decide)

/-- Witness for C6: the successful PMC acquisition of the fixture oracle. -/
theorem attemptPdf_naming_convention_witness :
    "pdfs/33497357_10.1126#sciimmunol.aau8714_W1.pdf".data
      = "pdfs".data ++ "/".data ++
        sanitize (pdfSegment exMeta.pmid ++ "_".data ++
                  pdfSegment exMeta.doi ++ "_".data ++
                  pdfSegment exMeta.openalex ++ ".pdf".data) ∧
    '/' ∉ pdfFileName exMeta ∧
    (exMeta.pmid = none → pdfSegment exMeta.pmid = "None".data) ∧
    (exMeta.doi = none → pdfSegment exMeta.doi = "None".data) ∧
    (exMeta.openalex = none → pdfSegment exMeta.openalex = "None".data) :=
  attemptPdf_naming_convention exApi false "pdfs".data exMeta
    "pdfs/33497357_10.1126#sciimmunol.aau8714_W1.pdf".data
    ["direct PDF download failed".data, "PDF downloaded from PMC".data]
    [PdfStage.direct, PdfStage.pmc] (by decide)

/-- Witness for C7: the record returned for the fixture's citing work. -/
theorem get_citations_entry_type_witness :
    exCitingWork.entry_type = "citing primary entry".data :=
  get_citations_entry_type exApi "a@b.c".data [exWork] none none false false
    [] exCitingWork (by decide)

/-- Witness for C8 at an environment lacking the EMAIL key. -/
theorem get_works_missing_email_witness :
    loadEmail (fun _ => none) =
      Except.error
        "Add your email address to the environment variables before proceeding".data ∧
    get_works exApi none ["33497357".data] none none false false
      "primary".data []
      = (Except.error "missing courtesy email configuration".data, []) :=
  get_works_missing_email exApi ["33497357".data] none none false false
    "primary".data [] (fun _ => none) rfl

/-- Witness for C10 at a concrete bare DOI and bare OpenAlex ID. -/
theorem normalizeId_prefix_invariant_witness :
    normalizeId (doiPre ++ "10.1126/sciimmunol.aau8714".data)
      = normalizeId "10.1126/sciimmunol.aau8714".data ∧
    normalizeId (oaPre ++ "W4387665659".data)
      = normalizeId "W4387665659".data :=
  normalizeId_prefix_invariant "10.1126/sciimmunol.aau8714".data
    "W4387665659".data (by decide) (by decide) (by decide) (by decide)
